import Mathlib

set_option maxRecDepth 8000

/-!
Verification of the Travel OS decision engine (src/app.py).

The program is a single-file Streamlit app.  Its logical core is pure:
a static catalog of cities and routes, a transport-mode scoring function
(`recommend_transport`), a budget-risk classifier (`budget_risk`) and a
handful of arithmetic aggregations computed in the main script body.

We embed that core shallowly: Python numbers become `ℚ` (score arithmetic
mixes ints and floats and all constants are exactly representable), Python
lists become `List`, the `CITIES` / `ROUTES` dicts become association
lists, a dict lookup that can raise `KeyError` becomes an `Option`, and
the main-script loop accumulations become folds.  `priorities`, a Python
list of strings selected from a fixed multiselect, becomes `List String`
with membership tests exactly as in the source.
-/

namespace TravelOS

/-- Embeds `class City` (src/app.py).  All seven numeric ratings are
stored as rationals; `name`/`country` are display identity. -/
structure City where
  name : String
  country : String
  hotel : ℚ
  food : ℚ
  safety : ℚ
  internet : ℚ
  walkability : ℚ
  nightlife : ℚ
  culture : ℚ
deriving DecidableEq, Repr

/-- Python `round` rounds half to even.  `pyround_int q` is
`round(q)` for a rational `q` (ties to the even integer). -/
def pyround_int (q : ℚ) : ℤ :=
  let f := ⌊q⌋
  let r := q - f
  if r < 1/2 then f
  else if 1/2 < r then f + 1
  else if f % 2 = 0 then f else f + 1

/-- Embeds Python `round(x, 2)`. -/
def round2 (q : ℚ) : ℚ := (pyround_int (q * 100) : ℚ) / 100

/-- Embeds `City.score`: `round((safety + internet + walkability + culture) / 4, 2)`. -/
def City.score (c : City) : ℚ :=
  round2 ((c.safety + c.internet + c.walkability + c.culture) / 4)

/-- Embeds `class Transport` (src/app.py): a name plus the four numeric
coefficients.  The four concrete subclasses only fix these fields. -/
structure Transport where
  name : String
  price_km : ℚ
  speed : ℚ
  comfort : ℚ
  eco : ℚ
deriving DecidableEq, Repr

/-- Embeds `Transport.cost`: `km * self.price_km`. -/
def Transport.cost (t : Transport) (km : ℚ) : ℚ := km * t.price_km

/-- Embeds `Transport.time`: `km / self.speed`. -/
def Transport.time (t : Transport) (km : ℚ) : ℚ := km / t.speed

/-- Embeds `class Car`: `Transport("🚗 Car", 0.25, 80, 7, 6)`. -/
def Car : Transport := ⟨"Car", 0.25, 80, 7, 6⟩

/-- Embeds `class Train`: `Transport("🚆 Train", 0.18, 130, 8, 9)`. -/
def Train : Transport := ⟨"Train", 0.18, 130, 8, 9⟩

/-- Embeds `class Plane`: `Transport("✈️ Plane", 0.45, 650, 9, 3)`. -/
def Plane : Transport := ⟨"Plane", 0.45, 650, 9, 3⟩

/-- Embeds `class Bus`: `Transport("🚌 Bus", 0.12, 70, 5, 7)`. -/
def Bus : Transport := ⟨"Bus", 0.12, 70, 5, 7⟩

instance : Inhabited Transport := ⟨Car⟩

/-- Embeds the `options = [Car(), Train(), Plane(), Bus()]` list built
inside `recommend_transport`. -/
def options : List Transport := [Car, Train, Plane, Bus]

/-- Embeds the `CITIES` dict (src/app.py lines 105-112) as an
association list in insertion order. -/
def CITIES : List (String × City) :=
  [("Sofia", ⟨"Sofia", "Bulgaria", 70, 20, 7, 8, 6, 6, 8⟩),
   ("Belgrade", ⟨"Belgrade", "Serbia", 65, 22, 6, 7, 6, 7, 7⟩),
   ("Budapest", ⟨"Budapest", "Hungary", 75, 23, 8, 8, 7, 8, 8⟩),
   ("Vienna", ⟨"Vienna", "Austria", 95, 30, 9, 9, 8, 6, 9⟩),
   ("Prague", ⟨"Prague", "Czech Republic", 85, 25, 8, 8, 9, 7, 9⟩),
   ("Munich", ⟨"Munich", "Germany", 100, 28, 9, 9, 8, 6, 8⟩)]

/-- Embeds the Python dict lookup `CITIES[c]`: `none` models `KeyError`. -/
def findCity (n : String) : Option City :=
  (CITIES.find? (fun p => p.1 == n)).map (fun p => p.2)

/-- Embeds the `ROUTES` dict (src/app.py lines 114-118). -/
def ROUTES : List (String × List String) :=
  [("Balkan Core", ["Sofia", "Belgrade", "Budapest"]),
   ("Central Europe", ["Munich", "Vienna", "Prague", "Budapest"]),
   ("Grand Explorer", ["Sofia", "Belgrade", "Budapest", "Vienna", "Prague", "Munich"])]

/-- Embeds `DISTANCE_PER_SEGMENT = 300`. -/
def DISTANCE_PER_SEGMENT : ℕ := 300

/-- Embeds the score computed for one mode inside `recommend_transport`
(src/app.py lines 130-138): starts at 0, then the four conditional
updates in source order. -/
def score (priorities : List String) (km : ℚ) (t : Transport) : ℚ :=
  let s0 : ℚ := 0
  let s1 := if "Low cost" ∈ priorities then s0 - t.cost km / 100 else s0
  let s2 := if "Comfort" ∈ priorities then s1 + t.comfort * 2 else s1
  let s3 := if "Eco" ∈ priorities then s2 + t.eco * 2 else s2
  if "Fast" ∈ priorities then s3 + t.speed / 100 else s3

/-- The `scored` list of `(score, t)` pairs built by the loop in
`recommend_transport`. -/
def scoredList (priorities : List String) (km : ℚ) : List (ℚ × Transport) :=
  options.map (fun t => (score priorities km t, t))

/-- Embeds `scored.sort(reverse=True, key=lambda x: x[0])`.
Python list.sort is stable; with `reverse=True` it is a stable
descending sort on the key, which is insertion sort with the relation
"left score is at least right score". -/
def sortDesc (l : List (ℚ × Transport)) : List (ℚ × Transport) :=
  l.insertionSort (fun x y => y.1 ≤ x.1)

/-- Embeds `recommend_transport(profile, km)` (src/app.py lines 126-141):
build the scored list, stable-sort descending, return `scored[0][1]`. -/
def recommend_transport (priorities : List String) (km : ℚ) : Transport :=
  (sortDesc (scoredList priorities km)).headI.2

/-- Embeds `budget_risk(total, budget)` (src/app.py lines 144-148). -/
def budget_risk (total budget : ℚ) : String :=
  let ratio := total / budget
  if ratio < 0.85 then "LOW"
  else if ratio ≤ 1.0 then "MEDIUM"
  else "HIGH"

/-- Embeds the Python dict lookup `ROUTES[route_name]`. -/
def findRoute (n : String) : Option (List String) :=
  (ROUTES.find? (fun p => p.1 == n)).map (fun p => p.2)

/-- Embeds `km_total = (len(cities) - 1) * DISTANCE_PER_SEGMENT`
(src/app.py lines 176-178).  Every route is non-empty, so natural
subtraction agrees with Python here. -/
def km_total (cities : List String) : ℕ :=
  (cities.length - 1) * DISTANCE_PER_SEGMENT

/-- Embeds the `hotel_total` accumulation of the city-cards loop
(src/app.py lines 203-208): starts at 0 and adds
`CITIES[c].hotel * days_city` per city; `none` models a `KeyError`. -/
def hotel_total (cities : List String) (days_city : ℕ) : Option ℚ :=
  cities.foldl
    (fun acc c => acc.bind (fun a => (findCity c).map (fun city => a + city.hotel * days_city)))
    (some 0)

/-- Embeds the `food_total` accumulation of the same loop
(src/app.py lines 204-209). -/
def food_total (cities : List String) (days_city : ℕ) : Option ℚ :=
  cities.foldl
    (fun acc c => acc.bind (fun a => (findCity c).map (fun city => a + city.food * days_city)))
    (some 0)

/-- Embeds Python `max(cities, key=...)` (src/app.py lines 252 and 256):
iterate keeping the current best, replacing it only on a strictly
greater key, so ties keep the earliest element; `none` models the
`ValueError` on an empty list. -/
def pymax (key : String → ℚ) : List String → Option String
  | [] => none
  | c :: rest => some (rest.foldl (fun best x => if key best < key x then x else best) c)

/-- The nightlife rating looked up by the insight rule
(`CITIES[x].nightlife`); route cities always resolve, the 0 default is
never exercised on catalog routes. -/
def nightlifeOf (c : String) : ℚ := ((findCity c).map City.nightlife).getD 0

/-- The culture rating looked up by the insight rule (`CITIES[x].culture`). -/
def cultureOf (c : String) : ℚ := ((findCity c).map City.culture).getD 0

/-- Embeds the nightlife insight (src/app.py lines 251-253): shown with
the best-nightlife city exactly when "Nightlife" is selected. -/
def nightlifeInsight (priorities : List String) (cities : List String) : Option String :=
  if "Nightlife" ∈ priorities then pymax nightlifeOf cities else none

/-- Embeds the culture insight (src/app.py lines 255-257). -/
def cultureInsight (priorities : List String) (cities : List String) : Option String :=
  if "Culture" ∈ priorities then pymax cultureOf cities else none

/-- Embeds the eco-conflict warning condition
`transport.eco < 5 and "Eco" in priorities` (src/app.py line 259). -/
def ecoConflict (priorities : List String) (t : Transport) : Bool :=
  decide (t.eco < 5) && decide ("Eco" ∈ priorities)

/-- The outputs of one recomputation of the main script body, as a
function of the inputs (selected route cities, days per city,
priorities, budget): mirrors src/app.py lines 176-243. -/
structure RunOutputs where
  km : ℕ
  mode : Transport
  hotel : Option ℚ
  food : Option ℚ
  tcost : ℚ
  ttime : ℚ
  total : Option ℚ
  risk : Option String
deriving Repr

/-- Embeds the main script body (src/app.py lines 176-243): distance,
recommended transport, hotel/food accumulations, transport cost and
time, grand total and budget risk. -/
def run (cities : List String) (days_city : ℕ) (priorities : List String) (budget : ℚ) :
    RunOutputs :=
  let km := km_total cities
  let t := recommend_transport priorities km
  let h := hotel_total cities days_city
  let f := food_total cities days_city
  let tc := t.cost km
  let tt := t.time km
  let total := h.bind (fun hh => f.map (fun ff => hh + ff + tc))
  let risk := total.map (fun g => budget_risk g budget)
  ⟨km, t, h, f, tc, tt, total, risk⟩

/-- Modelled from the spec (§4.1 tie-break): the mode with the highest
score, ties broken by the first position in the canonical order
Car, Train, Plane, Bus.  Used as the refinement target for
`recommend_transport`. -/
def canonicalBest (priorities : List String) (km : ℚ) : Transport :=
  if score priorities km Train ≤ score priorities km Car ∧
     score priorities km Plane ≤ score priorities km Car ∧
     score priorities km Bus ≤ score priorities km Car then Car
  else if score priorities km Plane ≤ score priorities km Train ∧
          score priorities km Bus ≤ score priorities km Train then Train
  else if score priorities km Bus ≤ score priorities km Plane then Plane
  else Bus

/-- Modelled from the spec (§4.1 algorithm): the four score
contributions written as independent addends, the refinement target
for `score`. -/
def scoreSpec (priorities : List String) (km : ℚ) (t : Transport) : ℚ :=
  (if "Low cost" ∈ priorities then -(t.price_km * km / 100) else 0)
  + (if "Comfort" ∈ priorities then t.comfort * 2 else 0)
  + (if "Eco" ∈ priorities then t.eco * 2 else 0)
  + (if "Fast" ∈ priorities then t.speed / 100 else 0)

/-- Modelled from the spec (§4.4 tie-break): the first element of the
list whose key is greatest, the refinement target for `pymax`. -/
def firstMaxBy (key : String → ℚ) (l : List String) : Option String :=
  l.find? (fun c => l.all (fun c2 => decide (key c2 ≤ key c)))

/-- The per-city hotel price as seen through the catalog lookup. -/
def hotelOf (c : String) : ℚ := ((findCity c).map City.hotel).getD 0

/-- The per-city food price as seen through the catalog lookup. -/
def foodOf (c : String) : ℚ := ((findCity c).map City.food).getD 0

instance : IsTotal (ℚ × Transport) (fun x y => y.1 ≤ x.1) :=
  ⟨fun x y => le_total y.1 x.1⟩

instance : IsTrans (ℚ × Transport) (fun x y => y.1 ≤ x.1) :=
  ⟨fun _ _ _ h1 h2 => le_trans h2 h1⟩

/-- The head of the stable descending sort of a four-element list is
its first entry of maximal key. -/
theorem headI_sortDesc4 (a b c d : ℚ) (t1 t2 t3 t4 : Transport) :
    (sortDesc [(a,t1),(b,t2),(c,t3),(d,t4)]).headI =
      if b ≤ a ∧ c ≤ a ∧ d ≤ a then (a,t1)
      else if c ≤ b ∧ d ≤ b then (b,t2)
      else if d ≤ c then (c,t3)
      else (d,t4) := by
  rcases le_or_lt b a with hba | hba <;>
  rcases le_or_lt c a with hca | hca <;>
  rcases le_or_lt d a with hda | hda <;>
  rcases le_or_lt c b with hcb | hcb <;>
  rcases le_or_lt d b with hdb | hdb <;>
  rcases le_or_lt d c with hdc | hdc <;>
  simp_all [sortDesc, List.insertionSort, List.orderedInsert, le_of_lt, not_le.mpr] <;>
  try linarith

/-- `recommend_transport` refines the spec's canonical-order argmax. -/
theorem recommend_eq_canonicalBest (pr : List String) (km : ℚ) :
    recommend_transport pr km = canonicalBest pr km := by
  have h := headI_sortDesc4 (score pr km Car) (score pr km Train) (score pr km Plane)
    (score pr km Bus) Car Train Plane Bus
  simp only [recommend_transport, scoredList, options, List.map, canonicalBest]
  rw [h]
  split_ifs <;> rfl

/-- The recommended mode scores at least as high as every mode. -/
theorem score_le_recommend (pr : List String) (km : ℚ) (t : Transport) (ht : t ∈ options) :
    score pr km t ≤ score pr km (recommend_transport pr km) := by
  have hperm : List.Perm (sortDesc (scoredList pr km)) (scoredList pr km) :=
    List.perm_insertionSort _ _
  have hsorted : (sortDesc (scoredList pr km)).Sorted (fun x y => y.1 ≤ x.1) :=
    List.sorted_insertionSort _ _
  have hmem : (score pr km t, t) ∈ sortDesc (scoredList pr km) := by
    apply hperm.mem_iff.mpr
    simp only [scoredList, List.mem_map]
    exact ⟨t, ht, rfl⟩
  obtain ⟨x, xs, hx⟩ : ∃ x xs, sortDesc (scoredList pr km) = x :: xs := by
    rcases hswap : sortDesc (scoredList pr km) with _ | ⟨x, xs⟩
    · rw [hswap] at hmem; simp at hmem
    · exact ⟨x, xs, rfl⟩
  have hhead : (score pr km t, t).1 ≤ x.1 := by
    rw [hx] at hmem hsorted
    rcases List.mem_cons.mp hmem with hh | hh
    · rw [hh]
    · exact (List.sorted_cons.mp hsorted).1 _ hh
  have hxform : x ∈ scoredList pr km := by
    apply hperm.mem_iff.mp
    rw [hx]; exact List.mem_cons_self _ _
  have hx2 : x.1 = score pr km x.2 := by
    simp only [scoredList, List.mem_map] at hxform
    obtain ⟨u, _, rfl⟩ := hxform
    rfl
  have hrec : recommend_transport pr km = x.2 := by
    simp only [recommend_transport, hx, List.headI]
  rw [hrec, ← hx2]
  exact hhead

/-- The recommended mode is always one of the four options. -/
theorem recommend_mem (pr : List String) (km : ℚ) :
    recommend_transport pr km ∈ options := by
  rw [recommend_eq_canonicalBest]
  simp only [canonicalBest, options]
  split_ifs <;> simp

/-- With an empty priority list every score is 0 and Car is returned. -/
theorem recommend_empty (km : ℚ) : recommend_transport [] km = Car := by
  rw [recommend_eq_canonicalBest]
  simp [canonicalBest, score]

/-- C1: for every priority set and every distance km ≥ 0,
`recommend_transport` returns one of the four fixed modes, namely the
highest-scoring mode with ties broken by the first position in the
canonical order Car, Train, Plane, Bus (it is a pure function, so the
same inputs always give the same output), and with an empty priority
set it returns Car. -/
theorem recommend_transport_canonical (pr : List String) (km : ℚ) (hkm : 0 ≤ km) :
    recommend_transport pr km ∈ options ∧
    (∀ t ∈ options, score pr km t ≤ score pr km (recommend_transport pr km)) ∧
    recommend_transport pr km = canonicalBest pr km ∧
    recommend_transport [] km = Car :=
  ⟨recommend_mem pr km, fun t ht => score_le_recommend pr km t ht,
   recommend_eq_canonicalBest pr km, recommend_empty km⟩

/-- Witness for C1 at priorities = ["Eco"], km = 600. -/
theorem recommend_transport_canonical_witness :
    (0:ℚ) ≤ 600 ∧
    (recommend_transport ["Eco"] 600 ∈ options ∧
     (∀ t ∈ options, score ["Eco"] 600 t ≤ score ["Eco"] 600 (recommend_transport ["Eco"] 600)) ∧
     recommend_transport ["Eco"] 600 = canonicalBest ["Eco"] 600 ∧
     recommend_transport [] 600 = Car) :=
  ⟨by norm_num, recommend_transport_canonical ["Eco"] 600 (by norm_num)⟩

/-- C2: for every priority set, distance and mode, the score computed
inside `recommend_transport` equals the sum of the four independent
contributions (minus price_km·km/100 for "Low cost", plus comfort·2 for
"Comfort", plus eco·2 for "Eco", plus speed/100 for "Fast"), and an
empty priority set yields score 0. -/
theorem score_decomposition (pr : List String) (km : ℚ) (t : Transport) :
    score pr km t = scoreSpec pr km t ∧ score [] km t = 0 := by
  constructor
  · simp only [score, scoreSpec, Transport.cost]
    split_ifs <;> ring
  · simp [score]

/-- C3: for total ≥ 0 and budget > 0, `budget_risk` returns LOW exactly
when ratio < 0.85, MEDIUM exactly when 0.85 ≤ ratio ≤ 1.0 (both
boundaries included), and HIGH exactly when ratio > 1.0. -/
theorem budget_risk_thresholds (total budget : ℚ) (htot : 0 ≤ total) (hbud : 0 < budget) :
    (budget_risk total budget = "LOW" ↔ total / budget < 85/100) ∧
    (budget_risk total budget = "MEDIUM" ↔ 85/100 ≤ total / budget ∧ total / budget ≤ 1) ∧
    (budget_risk total budget = "HIGH" ↔ 1 < total / budget) := by
  simp only [budget_risk]
  split_ifs with h1 h2 <;> norm_num at * <;> simp_all +decide <;> try linarith

/-- Witness for C3 at total = 850, budget = 1000 (ratio exactly 0.85). -/
theorem budget_risk_thresholds_witness :
    (0:ℚ) ≤ 850 ∧ (0:ℚ) < 1000 ∧
    ((budget_risk 850 1000 = "LOW" ↔ (850:ℚ) / 1000 < 85/100) ∧
     (budget_risk 850 1000 = "MEDIUM" ↔ 85/100 ≤ (850:ℚ) / 1000 ∧ (850:ℚ) / 1000 ≤ 1) ∧
     (budget_risk 850 1000 = "HIGH" ↔ 1 < (850:ℚ) / 1000)) :=
  ⟨by norm_num, by norm_num, budget_risk_thresholds 850 1000 (by norm_num) (by norm_num)⟩

/-- C4: for every catalog route and every days-per-city d, the run
computes distance = (n−1)·300, hotelTotal = (Σ hotel(cᵢ))·d,
foodTotal = (Σ food(cᵢ))·d, transportCost = distance·price_km of the
selected mode, transportTime = distance/speed of the selected mode, and
grandTotal = hotelTotal + foodTotal + transportCost. -/
theorem cost_aggregation_formulas :
    ∀ p ∈ ROUTES, ∀ (d : ℕ) (pr : List String) (b : ℚ),
    (run p.2 d pr b).km = (p.2.length - 1) * 300 ∧
    (run p.2 d pr b).hotel = some ((p.2.map hotelOf).sum * d) ∧
    (run p.2 d pr b).food = some ((p.2.map foodOf).sum * d) ∧
    (run p.2 d pr b).tcost = (km_total p.2 : ℚ) * (run p.2 d pr b).mode.price_km ∧
    (run p.2 d pr b).ttime = (km_total p.2 : ℚ) / (run p.2 d pr b).mode.speed ∧
    (run p.2 d pr b).total =
      some ((p.2.map hotelOf).sum * d + (p.2.map foodOf).sum * d + (run p.2 d pr b).tcost) := by
  intro p hp d pr b
  simp only [ROUTES, List.mem_cons, List.not_mem_nil, or_false] at hp
  rcases hp with rfl | rfl | rfl <;>
    refine ⟨rfl, ?_, ?_, rfl, rfl, ?_⟩ <;>
    simp +decide [run, hotel_total, food_total, hotelOf, foodOf, findCity, CITIES,
      Transport.cost] <;>
    ring

/-- Witness for C4 at route "Balkan Core", d = 3, priorities = ["Eco"],
budget = 3500. -/
theorem cost_aggregation_formulas_witness :
    ("Balkan Core", ["Sofia", "Belgrade", "Budapest"]) ∈ ROUTES ∧
    ((run ["Sofia", "Belgrade", "Budapest"] 3 ["Eco"] 3500).km =
        ((["Sofia", "Belgrade", "Budapest"] : List String).length - 1) * 300 ∧
     (run ["Sofia", "Belgrade", "Budapest"] 3 ["Eco"] 3500).hotel =
        some (((["Sofia", "Belgrade", "Budapest"] : List String).map hotelOf).sum * 3) ∧
     (run ["Sofia", "Belgrade", "Budapest"] 3 ["Eco"] 3500).food =
        some (((["Sofia", "Belgrade", "Budapest"] : List String).map foodOf).sum * 3) ∧
     (run ["Sofia", "Belgrade", "Budapest"] 3 ["Eco"] 3500).tcost =
        (km_total ["Sofia", "Belgrade", "Budapest"] : ℚ) *
          (run ["Sofia", "Belgrade", "Budapest"] 3 ["Eco"] 3500).mode.price_km ∧
     (run ["Sofia", "Belgrade", "Budapest"] 3 ["Eco"] 3500).ttime =
        (km_total ["Sofia", "Belgrade", "Budapest"] : ℚ) /
          (run ["Sofia", "Belgrade", "Budapest"] 3 ["Eco"] 3500).mode.speed ∧
     (run ["Sofia", "Belgrade", "Budapest"] 3 ["Eco"] 3500).total =
        some (((["Sofia", "Belgrade", "Budapest"] : List String).map hotelOf).sum * 3 +
          ((["Sofia", "Belgrade", "Budapest"] : List String).map foodOf).sum * 3 +
          (run ["Sofia", "Belgrade", "Budapest"] 3 ["Eco"] 3500).tcost)) :=
  ⟨by decide, cost_aggregation_formulas ("Balkan Core", ["Sofia", "Belgrade", "Budapest"]) (by decide) 3 ["Eco"] 3500⟩

/-- C5: for every city in the catalog the derived score is the mean of
exactly the four ratings safety, internet, walkability and culture
rounded to 2 decimals; changing hotel, food or nightlife never changes
the score; the six catalog scores are 7.25, 6.5, 7.75, 8.75, 8.5, 8.5. -/
theorem city_score_is_mean4 :
    (∀ p ∈ CITIES,
      p.2.score = round2 ((p.2.safety + p.2.internet + p.2.walkability + p.2.culture) / 4) ∧
      ∀ h f nl, City.score
          ⟨p.2.name, p.2.country, h, f, p.2.safety, p.2.internet, p.2.walkability, nl,
            p.2.culture⟩ = p.2.score) ∧
    CITIES.map (fun p => p.2.score) = [29/4, 13/2, 31/4, 35/4, 17/2, 17/2] := by
  constructor
  · intro p _
    exact ⟨rfl, fun h f nl => rfl⟩
  · norm_num [CITIES, City.score, round2, pyround_int]

/-- C6: for every catalog route, doubling the days-per-city exactly
doubles hotelTotal and foodTotal while the recommended mode and the
transport cost are unchanged. -/
theorem cost_scaling_in_days :
    ∀ p ∈ ROUTES, ∀ (d : ℕ) (pr : List String) (b : ℚ),
    (run p.2 (2*d) pr b).hotel = (run p.2 d pr b).hotel.map (fun x => 2 * x) ∧
    (run p.2 (2*d) pr b).food = (run p.2 d pr b).food.map (fun x => 2 * x) ∧
    (run p.2 (2*d) pr b).mode = (run p.2 d pr b).mode ∧
    (run p.2 (2*d) pr b).tcost = (run p.2 d pr b).tcost := by
  intro p hp d pr b
  simp only [ROUTES, List.mem_cons, List.not_mem_nil, or_false] at hp
  rcases hp with rfl | rfl | rfl <;>
    refine ⟨?_, ?_, rfl, rfl⟩ <;>
    simp +decide [run, hotel_total, food_total, findCity, CITIES] <;>
    ring

/-- Witness for C6 at route "Balkan Core", d = 3, priorities = ["Eco"],
budget = 3500. -/
theorem cost_scaling_in_days_witness :
    ("Balkan Core", ["Sofia", "Belgrade", "Budapest"]) ∈ ROUTES ∧
    ((run ["Sofia", "Belgrade", "Budapest"] (2*3) ["Eco"] 3500).hotel =
        (run ["Sofia", "Belgrade", "Budapest"] 3 ["Eco"] 3500).hotel.map (fun x => 2 * x) ∧
     (run ["Sofia", "Belgrade", "Budapest"] (2*3) ["Eco"] 3500).food =
        (run ["Sofia", "Belgrade", "Budapest"] 3 ["Eco"] 3500).food.map (fun x => 2 * x) ∧
     (run ["Sofia", "Belgrade", "Budapest"] (2*3) ["Eco"] 3500).mode =
        (run ["Sofia", "Belgrade", "Budapest"] 3 ["Eco"] 3500).mode ∧
     (run ["Sofia", "Belgrade", "Budapest"] (2*3) ["Eco"] 3500).tcost =
        (run ["Sofia", "Belgrade", "Budapest"] 3 ["Eco"] 3500).tcost) :=
  ⟨by decide, cost_scaling_in_days ("Balkan Core", ["Sofia", "Belgrade", "Budapest"]) (by decide) 3 ["Eco"] 3500⟩

/-- C7: for every catalog route and priority set, the nightlife insight
is shown iff "Nightlife" is selected and reports the first city of the
route attaining the maximum nightlife rating, the culture insight does
the same for "Culture" and the culture rating, and the eco conflict
flag is shown iff "Eco" is selected and the recommended mode's eco
rating is below 5. -/
theorem insight_rules_shape :
    ∀ p ∈ ROUTES, ∀ (pr : List String) (km : ℚ),
    nightlifeInsight pr p.2 = (if "Nightlife" ∈ pr then firstMaxBy nightlifeOf p.2 else none) ∧
    cultureInsight pr p.2 = (if "Culture" ∈ pr then firstMaxBy cultureOf p.2 else none) ∧
    (ecoConflict pr (recommend_transport pr km) = true ↔
      ("Eco" ∈ pr ∧ (recommend_transport pr km).eco < 5)) := by
  intro p hp pr km
  refine ⟨?_, ?_, ?_⟩
  · by_cases hN : "Nightlife" ∈ pr
    · simp only [nightlifeInsight, hN, if_true]
      simp only [ROUTES, List.mem_cons, List.not_mem_nil, or_false] at hp
      rcases hp with rfl | rfl | rfl <;> decide
    · simp only [nightlifeInsight, hN, if_false]
  · by_cases hC : "Culture" ∈ pr
    · simp only [cultureInsight, hC, if_true]
      simp only [ROUTES, List.mem_cons, List.not_mem_nil, or_false] at hp
      rcases hp with rfl | rfl | rfl <;> decide
    · simp only [cultureInsight, hC, if_false]
  · simp only [ecoConflict, Bool.and_eq_true, decide_eq_true_eq]
    tauto

/-- Witness for C7 at route "Balkan Core",
priorities = ["Nightlife", "Culture", "Eco"], km = 600. -/
theorem insight_rules_shape_witness :
    ("Balkan Core", ["Sofia", "Belgrade", "Budapest"]) ∈ ROUTES ∧
    (nightlifeInsight ["Nightlife", "Culture", "Eco"] ["Sofia", "Belgrade", "Budapest"] =
        (if "Nightlife" ∈ ["Nightlife", "Culture", "Eco"] then
          firstMaxBy nightlifeOf ["Sofia", "Belgrade", "Budapest"] else none) ∧
     cultureInsight ["Nightlife", "Culture", "Eco"] ["Sofia", "Belgrade", "Budapest"] =
        (if "Culture" ∈ ["Nightlife", "Culture", "Eco"] then
          firstMaxBy cultureOf ["Sofia", "Belgrade", "Budapest"] else none) ∧
     (ecoConflict ["Nightlife", "Culture", "Eco"]
          (recommend_transport ["Nightlife", "Culture", "Eco"] 600) = true ↔
        ("Eco" ∈ ["Nightlife", "Culture", "Eco"] ∧
         (recommend_transport ["Nightlife", "Culture", "Eco"] 600).eco < 5))) :=
  ⟨by decide, insight_rules_shape ("Balkan Core", ["Sofia", "Belgrade", "Budapest"]) (by decide) ["Nightlife", "Culture", "Eco"] 600⟩

/-- C8: the two example scenarios of the spec evaluate exactly as
stated on the shipped catalog: route "Balkan Core" has distance 600;
with priorities = Eco the scores are Car 12, Train 18, Plane 6, Bus 14
and Train is selected, and with d = 3 the totals are 630, 195, 108 and
933, classified LOW against budget 3500; with priorities = Low cost the
scores are −1.5, −1.08, −2.7, −0.72 and Bus is selected. -/
theorem balkan_core_scenario :
    findRoute "Balkan Core" = some ["Sofia", "Belgrade", "Budapest"] ∧
    km_total ["Sofia", "Belgrade", "Budapest"] = 600 ∧
    score ["Eco"] 600 Car = 12 ∧ score ["Eco"] 600 Train = 18 ∧
    score ["Eco"] 600 Plane = 6 ∧ score ["Eco"] 600 Bus = 14 ∧
    recommend_transport ["Eco"] 600 = Train ∧
    (run ["Sofia", "Belgrade", "Budapest"] 3 ["Eco"] 3500).hotel = some 630 ∧
    (run ["Sofia", "Belgrade", "Budapest"] 3 ["Eco"] 3500).food = some 195 ∧
    (run ["Sofia", "Belgrade", "Budapest"] 3 ["Eco"] 3500).tcost = 108 ∧
    (run ["Sofia", "Belgrade", "Budapest"] 3 ["Eco"] 3500).total = some 933 ∧
    (run ["Sofia", "Belgrade", "Budapest"] 3 ["Eco"] 3500).risk = some "LOW" ∧
    score ["Low cost"] 600 Car = -1.5 ∧ score ["Low cost"] 600 Train = -1.08 ∧
    score ["Low cost"] 600 Plane = -2.7 ∧ score ["Low cost"] 600 Bus = -0.72 ∧
    recommend_transport ["Low cost"] 600 = Bus := by
  refine ⟨by decide, by decide, ?_⟩
  norm_num +decide [score, Transport.cost, Car, Train, Plane, Bus, recommend_transport,
    sortDesc, scoredList, options, List.insertionSort, List.orderedInsert, run, km_total,
    DISTANCE_PER_SEGMENT, hotel_total, food_total, findCity, CITIES, budget_risk]

/-- C9: every route of the static catalog has a non-empty city list and
every city name it references resolves in the city catalog; both
catalogs are immutable definitions, so this holds throughout a run. -/
theorem routes_reference_catalog :
    ROUTES.all (fun p => !p.2.isEmpty && p.2.all (fun c => (findCity c).isSome)) = true := by
  decide

/-- Plane is the only option whose eco rating is below 5. -/
theorem plane_only_low_eco : ∀ t ∈ options, t.eco < 5 → t = Plane := by
  intro t ht
  simp only [options, List.mem_cons, List.not_mem_nil, or_false] at ht
  rcases ht with rfl | rfl | rfl | rfl
  · intro h; exfalso; norm_num [Car] at h
  · intro h; exfalso; norm_num [Train] at h
  · intro h; rfl
  · intro h; exfalso; norm_num [Bus] at h

/-- The three eco-friendly modes are distinct from Plane. -/
theorem car_ne_plane : Car ≠ Plane := by
  intro h
  simp +decide [Car, Plane] at h

theorem train_ne_plane : Train ≠ Plane := by
  intro h
  simp +decide [Train, Plane] at h

theorem bus_ne_plane : Bus ≠ Plane := by
  intro h
  simp +decide [Bus, Plane] at h

/-- C10: for every distance km ≥ 0 and every priority set containing
"Eco", the recommended mode has eco rating ≥ 5, Plane — the only mode
with eco rating < 5 — is never selected, and the eco conflict warning
is never displayed. -/
theorem eco_priority_no_conflict (pr : List String) (km : ℚ) (hkm : 0 ≤ km)
    (heco : "Eco" ∈ pr) :
    5 ≤ (recommend_transport pr km).eco ∧
    recommend_transport pr km ≠ Plane ∧
    (∀ t ∈ options, t.eco < 5 → t = Plane) ∧
    ecoConflict pr (recommend_transport pr km) = false := by
  have hPT : score pr km Plane < score pr km Train := by
    simp only [score, Transport.cost, Plane, Train, heco, if_true]
    split_ifs <;> norm_num <;> linarith
  rw [recommend_eq_canonicalBest]
  simp only [canonicalBest]
  split_ifs with h1 h2 h3
  · exact ⟨by norm_num [Car], car_ne_plane, plane_only_low_eco, by simp +decide [ecoConflict, Car]⟩
  · exact ⟨by norm_num [Train], train_ne_plane, plane_only_low_eco, by simp +decide [ecoConflict, Train]⟩
  · exfalso
    push_neg at h2
    have hb := h2 (le_of_lt hPT)
    linarith
  · exact ⟨by norm_num [Bus], bus_ne_plane, plane_only_low_eco, by simp +decide [ecoConflict, Bus]⟩

/-- Witness for C10 at priorities = ["Eco"], km = 600. -/
theorem eco_priority_no_conflict_witness :
    (0:ℚ) ≤ 600 ∧ "Eco" ∈ ["Eco"] ∧
    (5 ≤ (recommend_transport ["Eco"] 600).eco ∧
     recommend_transport ["Eco"] 600 ≠ Plane ∧
     (∀ t ∈ options, t.eco < 5 → t = Plane) ∧
     ecoConflict ["Eco"] (recommend_transport ["Eco"] 600) = false) :=
  ⟨by norm_num, by decide, eco_priority_no_conflict ["Eco"] 600 (by norm_num) (by decide)⟩

end TravelOS
